import Mathlib

/-!
# Session lifecycle of the JWT auth API

A shallow embedding of `pck/auth/controllers/auth_controller.go` and
`pck/router/route.go`.  A fiber handler reads a request context and talks to the
Redis cache; here a handler is a function from an explicit request context and a
store state to a response and the store state it leaves behind.  Everything a
handler gets from outside (cookies, the authenticated user, the loaded
configuration, the token generator, the generated UUID, infrastructure faults of
the cache) is a field of its context.
-/

namespace JwtAuth

/-! ## Go integers and durations -/

/-- Two's complement wrap of a Go `int` / `int64` result. -/
def wrapInt64 (x : Int) : Int := (x + 2 ^ 63) % 2 ^ 64 - 2 ^ 63

/-- Go `time.Second`, in nanoseconds (`time.Duration` is an `int64` of nanoseconds). -/
def Second : Int := 1000000000

/-- Go `time.Hour`, in nanoseconds. -/
def Hour : Int := 3600 * Second

/-- Go `Duration * Duration` on `int64`. -/
def mulInt64 (a b : Int) : Int := wrapInt64 (a * b)

/-- Whole seconds of a duration (`Duration.Seconds` truncated towards zero). -/
def durationSeconds (d : Int) : Int := Int.tdiv d Second

/-! ## fiber status codes -/

def StatusOK : Nat := 200
def StatusBadRequest : Nat := 400
def StatusBadGateway : Nat := 502

/-- A caller-fault status is a 4xx status. -/
def isCallerFault (status : Nat) : Bool := decide (400 ≤ status) && decide (status < 500)

/-! ## Data model -/

/-- Modelled from the spec: the user record of package `models` (absent); the
controller reads `user.ID.Hex()`, the access guard reads the role. `ID` is the hex
rendering of the identifier. -/
structure User where
  ID : String
  Role : String
deriving DecidableEq, Repr

/-- Modelled from the spec: the configuration struct returned by
`database.LoadConfig` (absent). The fields are the ones the controllers read:
the `MaxAge` fields are Go `int`, the `ExpiresIn` fields are `time.Duration`. -/
structure Config where
  AccessJwtSecret : String
  AccessJwtExpiresIn : Int
  AccessJwtMaxAge : Int
  RefreshJwtSecret : String
  RefreshJwtExpiresIn : Int
  RefreshJwtMaxAge : Int
deriving DecidableEq, Repr

/-- The value `cache.CacheValue` built by `RefreshToken`. -/
structure CacheValue where
  UserID : String
  RefreshToken : String
deriving DecidableEq, Repr

/-- A cache entry: the saved value and the TTL it was saved under (nanoseconds). -/
structure Entry where
  value : CacheValue
  ttl : Int
deriving DecidableEq, Repr

/-- The Credential Store: at most one entry per session identifier. -/
abbrev Store := String → Option Entry

/-- Modelled from the spec: `save(sessionID, record, ttl) -> ok | StoreError` of the
absent package `cache`: an upsert that overwrites the entry of that identifier;
on a store fault nothing is written. Returns the Go error and the store after. -/
def SaveRefreshToken (s : Store) (sessionID : String) (value : CacheValue) (ttl : Int)
    (fault : Option String) : Option String × Store :=
  match fault with
  | some e => (some e, s)
  | none => (none, fun k => if k = sessionID then some ⟨value, ttl⟩ else s k)

/-- Modelled from the spec: `get(sessionID) -> record | NotFound | StoreError` of the
absent package `cache`: a point lookup; absence is a nil record with a nil error.
Returns the Go pair (record pointer, error). -/
def GetRefreshToken (s : Store) (sessionID : String) (fault : Option String) :
    Option CacheValue × Option String :=
  match fault with
  | some e => (none, some e)
  | none => ((s sessionID).map Entry.value, none)

/-- Modelled from the spec: `delete(sessionID) -> ok` of the absent package `cache`:
idempotent, deleting a missing key is not an error. Returns the Go error (always
nil) and the store after. -/
def DeleteRefreshToken (s : Store) (sessionID : String) : Option String × Store :=
  (none, fun k => if k = sessionID then none else s k)

/-- A session identifier resolves when the lookup returns a record. -/
def resolves (s : Store) (sessionID : String) : Bool := (s sessionID).isSome

/-! ## UUIDs -/

/-- A 128-bit UUID as a number; its bytes are read big-endian. -/
structure UUID where
  val : Nat
deriving DecidableEq, Repr

/-- Byte `i` (0 is the first) of a UUID. -/
def UUID.byte (u : UUID) (i : Nat) : Nat := u.val / 256 ^ (15 - i) % 256

/-- Two lower-case hex digits of a byte. -/
def hexByte (b : Nat) : List Char := [Nat.digitChar (b / 16 % 16), Nat.digitChar (b % 16)]

/-- Hex digits of bytes `i, i+1, .., i+n-1` of a UUID. -/
def UUID.hex (u : UUID) (i : Nat) : Nat → List Char
  | 0 => []
  | n + 1 => hexByte (u.byte i) ++ UUID.hex u (i + 1) n

/-- The canonical text of `UUID.String()`: `xxxxxxxx-xxxx-xxxx-xxxx-xxxxxxxxxxxx`. -/
def uuidString (u : UUID) : String :=
  String.mk (u.hex 0 4 ++ '-' :: u.hex 4 2 ++ '-' :: u.hex 6 2 ++ '-' :: u.hex 8 2 ++
    '-' :: u.hex 10 6)

/-! ## HTTP responses -/

/-- A `fiber.Cookie` as the controllers fill it. `Expires` is absolute time in
nanoseconds when set. -/
structure Cookie where
  Name : String
  Value : String
  Path : String
  MaxAge : Int
  Expires : Option Int
  Secure : Bool
  HTTPOnly : Bool
deriving DecidableEq, Repr

/-- What a handler sends: the status, the JSON map, and the cookies it set. -/
structure Response where
  status : Nat
  body : List (String × String)
  cookies : List Cookie
deriving DecidableEq, Repr

/-- The cookie with the given name among those a response sets. -/
def Response.cookie (r : Response) (name : String) : Option Cookie :=
  r.cookies.find? (fun c => c.Name == name)

/-- The cookie's max-age in seconds, if the response sets that cookie. -/
def Response.cookieMaxAge (r : Response) (name : String) : Option Int :=
  (r.cookie name).map Cookie.MaxAge

/-- A field of the JSON map of a response. -/
def Response.field (r : Response) (key : String) : Option String :=
  (r.body.find? (fun kv => kv.1 == key)).map Prod.snd

/-- Go `fmt.Sprintf("%v", err)` of an error value. -/
def fmtErr : Option String → String
  | none => "<nil>"
  | some e => e

/-- The `{"status": "fail", "message": ...}` response. -/
def failResponse (status : Nat) (message : String) : Response :=
  ⟨status, [("status", "fail"), ("message", message)], []⟩

/-! ## RefreshToken -/

/-- What one `/refresh` request reads from outside the handler. -/
structure RefreshCtx where
  /-- The user `middleware.DeserializeUser` left in `c.Locals("user")`. -/
  user : User
  /-- The result of `database.LoadConfig(".")`. -/
  config : Config
  /-- The value of `c.Cookies("session_id")`, empty when the cookie is absent. -/
  session_id : String
  /-- The infrastructure error of the cache lookup, if the store is faulty. -/
  getFault : Option String
  /-- The absent `utils.GenerateToken(ttl, payload, secret)` as of this request. -/
  GenerateToken : Int → String → String → Except String String
  /-- The result of `uuid.New()`. -/
  newUUID : UUID
  /-- The infrastructure error of the cache save, if the store is faulty. -/
  saveFault : Option String

/-- The TTL `time.Duration(config.RefreshJwtMaxAge)*time.Hour` of the save. -/
def refreshSaveTTL (config : Config) : Int := mulInt64 config.RefreshJwtMaxAge Hour

/-- The cookie `access_token` set on success. -/
def accessCookie (config : Config) (accessToken : String) : Cookie :=
  { Name := "access_token", Value := accessToken, Path := "/",
    MaxAge := wrapInt64 (config.AccessJwtMaxAge * 60), Expires := none,
    Secure := false, HTTPOnly := true }

/-- The handler `AuthController.RefreshToken`. -/
def RefreshToken (c : RefreshCtx) (s : Store) : Response × Store :=
  let user := c.user
  let config := c.config
  let currentSessionID := c.session_id
  if currentSessionID = "" then
    (failResponse StatusBadRequest "session_id cookie is missing or empty", s)
  else
    let got := GetRefreshToken s currentSessionID c.getFault
    let cachedRefreshToken := got.1
    let err := got.2
    if err.isSome || cachedRefreshToken.isNone then
      (failResponse StatusBadGateway
        ("getting refresh token from cache failed: " ++ fmtErr err), s)
    else
      match c.GenerateToken config.AccessJwtExpiresIn user.ID config.AccessJwtSecret with
      | .error e =>
        (failResponse StatusBadGateway ("generating access token failed: " ++ e), s)
      | .ok accessToken =>
        match c.GenerateToken config.RefreshJwtExpiresIn user.ID config.RefreshJwtSecret with
        | .error e =>
          (failResponse StatusBadGateway ("generating refresh token failed: " ++ e), s)
        | .ok refreshToken =>
          let s1 := (DeleteRefreshToken s currentSessionID).2
          let sessionID := uuidString c.newUUID
          let value : CacheValue := { UserID := user.ID, RefreshToken := refreshToken }
          let saved := SaveRefreshToken s1 sessionID value (refreshSaveTTL config) c.saveFault
          match saved.1 with
          | some e =>
            (failResponse StatusBadGateway
              ("saving refresh token to cache failed: " ++ e), saved.2)
          | none =>
            (⟨StatusOK,
              [("status", "success"), ("access_token", accessToken),
               ("refresh_token", refreshToken)],
              [accessCookie config accessToken,
               { Name := "session_id", Value := sessionID, Path := "/",
                 MaxAge := wrapInt64 (config.RefreshJwtMaxAge * 60), Expires := none,
                 Secure := false, HTTPOnly := true }]⟩, saved.2)

/-! ## SignInUser -/

/-- The tokens the absent `AuthService.SignInUser` returns. -/
structure Tokens where
  AccessToken : String
  RefreshToken : String
  SessionID : String
deriving DecidableEq, Repr

/-- What one `/sign-in` request reads from outside the handler. -/
structure SignInCtx where
  /-- The error of `c.BodyParser(&payload)`, if any. -/
  parseErr : Option String
  /-- The result of `validator.ValidateStruct(payload)`, nil when valid. -/
  validationErrors : Option String
  /-- The result of the absent `AuthService.SignInUser(c, payload)`. -/
  service : Except String Tokens
  /-- The result of `database.LoadConfig(".")`. -/
  config : Config

/-- The handler `AuthController.SignInUser`. The session record is written by the
service, not by the handler, so the handler is a function to the response. -/
def SignInUser (c : SignInCtx) : Response :=
  match c.parseErr with
  | some e => ⟨StatusBadRequest, [("stattus", "fail"), ("message", e)], []⟩
  | none =>
    match c.validationErrors with
    | some errors => ⟨StatusBadRequest, [("status", "fail"), ("errors", errors)], []⟩
    | none =>
      match c.service with
      | .error err =>
        failResponse StatusBadGateway ("generating JWT Token failed: " ++ err)
      | .ok tokens =>
        let config := c.config
        ⟨StatusOK,
          [("status", "success"), ("access_token", tokens.AccessToken),
           ("refresh_token", tokens.RefreshToken)],
          [accessCookie config tokens.AccessToken,
           { Name := "session_id", Value := tokens.SessionID, Path := "/",
             MaxAge := wrapInt64 (config.AccessJwtMaxAge * 60), Expires := none,
             Secure := false, HTTPOnly := true }]⟩

/-! ## LogOutUser -/

/-- What one `/logout` request reads from outside the handler. -/
structure LogOutCtx where
  /-- The value of `c.Cookies("session_id")`, empty when the cookie is absent. -/
  session_id : String
  /-- The instant `time.Now()`, in nanoseconds. -/
  now : Int

/-- The immediately expiring cookie that clears `name`. -/
def clearedCookie (name : String) (now : Int) : Cookie :=
  { Name := name, Value := "", Path := "", MaxAge := 0,
    Expires := some (now + mulInt64 (-Hour) 24), Secure := false, HTTPOnly := true }

/-- The handler `AuthController.LogOutUser`. -/
def LogOutUser (c : LogOutCtx) (s : Store) : Response × Store :=
  let sessionID := c.session_id
  let s1 := if sessionID ≠ "" then (DeleteRefreshToken s sessionID).2 else s
  (⟨StatusOK, [("status", "success")],
    [clearedCookie "access_token" c.now, clearedCookie "session_id" c.now]⟩, s1)

/-! ## Routes and the access guard -/

/-- The handlers and middleware the route table names. -/
inductive Handler where
  | SignUpUser
  | SignInUser
  | LogOutUser
  | RefreshToken
  | GetMeHandler
  | GetUsersHandler
  | DeserializeUser
  | AllowedRoles (roles : List String)
deriving DecidableEq, Repr

/-- One registration: method, path and the handler chain in order. -/
structure Route where
  method : String
  path : String
  handlers : List Handler
deriving DecidableEq, Repr

/-- The route table registered by `SetupRoutes`. -/
def SetupRoutes : List Route :=
  [ ⟨"POST", "/sign-up", [.SignUpUser]⟩,
    ⟨"POST", "/sign-in", [.SignInUser]⟩,
    ⟨"GET", "/logout", [.DeserializeUser, .LogOutUser]⟩,
    ⟨"POST", "/refresh", [.DeserializeUser, .RefreshToken]⟩,
    ⟨"GET", "/users/me", [.DeserializeUser, .GetMeHandler]⟩,
    ⟨"GET", "/users/", [.DeserializeUser, .AllowedRoles ["admin", "moderator"],
      .GetUsersHandler]⟩ ]

/-- The handler chain registered for a method and path. -/
def chainOf (method path : String) : Option (List Handler) :=
  (SetupRoutes.find? (fun r => r.method == method && r.path == path)).map Route.handlers

/-- How a request through a handler chain ends. -/
inductive Outcome where
  | Unauthenticated
  | Forbidden
  | Reached (h : Handler)
  | NoHandler
deriving DecidableEq, Repr

/-- Modelled from the spec: `authorize(user, allowedRoles)` of the absent package
`middleware`: a membership test of the caller's role in the allowed set. -/
def authorize (user : User) (allowedRoles : List String) : Bool :=
  decide (user.Role ∈ allowedRoles)

/-- Modelled from the spec: how the absent middleware composes. `DeserializeUser`
is `authenticate`: it puts the user of the verified access token (`auth`) in the
request locals or ends the request as `Unauthenticated`; `AllowedRoles` is
`authorize` on the user in the locals and ends the request as `Forbidden` when it
fails; any other handler is the endpoint. `locals` is the user slot of the
request context. -/
def runChain (auth : Option User) : Option User → List Handler → Outcome
  | _, [] => .NoHandler
  | _, .DeserializeUser :: rest =>
    match auth with
    | none => .Unauthenticated
    | some u => runChain auth (some u) rest
  | locals, .AllowedRoles roles :: rest =>
    match locals with
    | none => .Unauthenticated
    | some u => if authorize u roles then runChain auth locals rest else .Forbidden
  | _, h :: _ => .Reached h

/-- A request dispatched through the route table. -/
def dispatch (method path : String) (auth : Option User) : Outcome :=
  match chainOf method path with
  | none => .NoHandler
  | some chain => runChain auth none chain

/-! ## Vocabulary for the statements -/

/-- A Go `(value, error)` result carries no error. -/
def succeeded : Except String String → Bool
  | .ok _ => true
  | .error _ => false

/-- The access-token minting call of `RefreshToken`, with its arguments. -/
def RefreshCtx.mintAccess (c : RefreshCtx) : Except String String :=
  c.GenerateToken c.config.AccessJwtExpiresIn c.user.ID c.config.AccessJwtSecret

/-- The refresh-token minting call of `RefreshToken`, with its arguments. -/
def RefreshCtx.mintRefresh (c : RefreshCtx) : Except String String :=
  c.GenerateToken c.config.RefreshJwtExpiresIn c.user.ID c.config.RefreshJwtSecret

/-- Token minting and the store operations of this request all succeed. -/
def RefreshCtx.noFaults (c : RefreshCtx) : Bool :=
  c.getFault.isNone && c.saveFault.isNone && succeeded c.mintAccess && succeeded c.mintRefresh

/-- The session identifier `RefreshToken` generates in this request. -/
def RefreshCtx.newSessionID (c : RefreshCtx) : String := uuidString c.newUUID

/-- The store a successful rotation leaves: the old identifier removed, then the
new identifier mapped to the new record. -/
def rotated (s : Store) (old new : String) (value : CacheValue) (ttl : Int) : Store :=
  fun k => if k = new then some ⟨value, ttl⟩ else if k = old then none else s k

/-- The success response of `RefreshToken`. -/
def refreshOK (config : Config) (accessToken refreshToken sessionID : String) : Response :=
  ⟨StatusOK,
    [("status", "success"), ("access_token", accessToken), ("refresh_token", refreshToken)],
    [accessCookie config accessToken,
     { Name := "session_id", Value := sessionID, Path := "/",
       MaxAge := wrapInt64 (config.RefreshJwtMaxAge * 60), Expires := none,
       Secure := false, HTTPOnly := true }]⟩

/-! ## Concrete requests used to evaluate the handlers -/

/-- A configuration: access tokens of 15 minutes, refresh tokens of 60 minutes. -/
def exConfig : Config :=
  { AccessJwtSecret := "access-secret", AccessJwtExpiresIn := 15 * 60 * Second,
    AccessJwtMaxAge := 15, RefreshJwtSecret := "refresh-secret",
    RefreshJwtExpiresIn := 60 * 60 * Second, RefreshJwtMaxAge := 60 }

/-- A token generator: signing fails on an empty secret. -/
def exGenerateToken : Int → String → String → Except String String :=
  fun _ payload secret =>
    if secret = "" then .error "empty secret" else .ok (payload ++ "." ++ secret)

/-- A version 4 UUID (version nibble 4, variant bits 10) with low bits `n`; it
renders to `00000000-0000-4000-8000-00000000000n` for `n < 16`. -/
def exUUID (n : Nat) : UUID := ⟨0x00000000000040008000000000000000 + n⟩

def alice : User := ⟨"a11ce", "user"⟩

def bob : User := ⟨"b0b", "user"⟩

/-- A store holding one session of `alice` under the identifier `s-old`. -/
def exStore : Store :=
  fun k => if k = "s-old" then some ⟨⟨"a11ce", "rt-old"⟩, 60 * Hour⟩ else none

/-- A fault-free `/refresh` request of `user` presenting `sid`; `n` is the UUID drawn. -/
def exCtx (user : User) (sid : String) (n : Nat) : RefreshCtx :=
  { user := user, config := exConfig, session_id := sid, getFault := none,
    GenerateToken := exGenerateToken, newUUID := exUUID n, saveFault := none }

/-- The same request under a configuration whose access secret is empty, so that
minting the access token fails. -/
def exCtxMintFails (user : User) (sid : String) (n : Nat) : RefreshCtx :=
  { exCtx user sid n with config := { exConfig with AccessJwtSecret := "" } }

/-- A successful `/sign-in` under `exConfig`. -/
def exSignIn : SignInCtx :=
  { parseErr := none, validationErrors := none,
    service := .ok ⟨"at", "rt", "s-old"⟩, config := exConfig }

/-- A store holding one session of `alice` under the identifier `exUUID 5` renders to. -/
def exStoreUUID : Store :=
  fun k => if k = uuidString (exUUID 5) then some ⟨⟨"a11ce", "rt-old"⟩, 60 * Hour⟩ else none

/-- A `/refresh` request whose cache lookup hits an unreachable store. -/
def exCtxStoreDown (user : User) (sid : String) (n : Nat) : RefreshCtx :=
  { exCtx user sid n with getFault := some "dial tcp: connection refused" }

/-! ## Lemmas on the handlers -/

theorem uuidString_ne_empty (u : UUID) : uuidString u ≠ "" := by
  intro h
  have hlen := congrArg String.length h
  simp [uuidString, UUID.hex, hexByte, String.length] at hlen

theorem resolves_iff (s : Store) (k : String) : resolves s k = true ↔ ∃ e, s k = some e := by
  simp [resolves, Option.isSome_iff_exists]

theorem resolves_false_iff (s : Store) (k : String) : resolves s k = false ↔ s k = none := by
  cases h : s k <;> simp [resolves, h]

/-- With no identifier presented the handler answers 400 and touches nothing. -/
theorem RefreshToken_of_empty (c : RefreshCtx) (s : Store) (h : c.session_id = "") :
    RefreshToken c s =
      (failResponse StatusBadRequest "session_id cookie is missing or empty", s) := by
  simp [RefreshToken, h]

/-- A lookup that errors or misses answers 502 and touches nothing. -/
theorem RefreshToken_of_lookup_failed (c : RefreshCtx) (s : Store) (h : c.session_id ≠ "")
    (hmiss : c.getFault.isSome = true ∨ s c.session_id = none) :
    RefreshToken c s =
      (failResponse StatusBadGateway ("getting refresh token from cache failed: " ++
        fmtErr (GetRefreshToken s c.session_id c.getFault).2), s) := by
  have hcond : ((GetRefreshToken s c.session_id c.getFault).2.isSome ||
      (GetRefreshToken s c.session_id c.getFault).1.isNone) = true := by
    rcases hmiss with hf | hn
    · cases hg : c.getFault with
      | none => simp [hg] at hf
      | some e => simp [GetRefreshToken]
    · cases hg : c.getFault <;> simp [GetRefreshToken, hn]
  simp [RefreshToken, h, hcond]

/-- Once the lookup has found a record, the handler is decided by the two minting
calls and the save. -/
theorem RefreshToken_of_found (c : RefreshCtx) (s : Store) (h : c.session_id ≠ "")
    (hget : c.getFault = none) (hres : resolves s c.session_id = true) :
    RefreshToken c s =
      match c.mintAccess with
      | .error e => (failResponse StatusBadGateway ("generating access token failed: " ++ e), s)
      | .ok accessToken =>
        match c.mintRefresh with
        | .error e =>
          (failResponse StatusBadGateway ("generating refresh token failed: " ++ e), s)
        | .ok refreshToken =>
          match c.saveFault with
          | some e =>
            (failResponse StatusBadGateway ("saving refresh token to cache failed: " ++ e),
              (DeleteRefreshToken s c.session_id).2)
          | none =>
            (refreshOK c.config accessToken refreshToken c.newSessionID,
              rotated s c.session_id c.newSessionID ⟨c.user.ID, refreshToken⟩
                (refreshSaveTTL c.config)) := by
  obtain ⟨e, he⟩ := (resolves_iff s c.session_id).1 hres
  have hcond : ((GetRefreshToken s c.session_id c.getFault).2.isSome ||
      (GetRefreshToken s c.session_id c.getFault).1.isNone) = false := by
    simp [GetRefreshToken, hget, he]
  unfold RefreshToken
  simp only [h, if_false, hcond, RefreshCtx.mintAccess, RefreshCtx.mintRefresh]
  cases ha : c.GenerateToken c.config.AccessJwtExpiresIn c.user.ID c.config.AccessJwtSecret with
  | error e => simp
  | ok a =>
    cases hr : c.GenerateToken c.config.RefreshJwtExpiresIn c.user.ID
        c.config.RefreshJwtSecret with
    | error e => simp
    | ok r =>
      cases hs : c.saveFault with
      | some e => simp [SaveRefreshToken]
      | none =>
        simp [SaveRefreshToken, DeleteRefreshToken, refreshOK, RefreshCtx.newSessionID]
        rfl

/-- A fault-free request presenting a resolving identifier rotates the session. -/
theorem RefreshToken_of_noFaults (c : RefreshCtx) (s : Store) (h : c.session_id ≠ "")
    (hres : resolves s c.session_id = true) (hok : c.noFaults = true) :
    ∃ a r, c.mintAccess = .ok a ∧ c.mintRefresh = .ok r ∧
      RefreshToken c s = (refreshOK c.config a r c.newSessionID,
        rotated s c.session_id c.newSessionID ⟨c.user.ID, r⟩ (refreshSaveTTL c.config)) := by
  simp only [RefreshCtx.noFaults, Bool.and_eq_true, Option.isNone_iff_eq_none] at hok
  obtain ⟨⟨⟨hget, hsave⟩, ha⟩, hr⟩ := hok
  rw [RefreshToken_of_found c s h hget hres]
  cases hma : c.mintAccess with
  | error e => simp [hma, succeeded] at ha
  | ok a =>
    cases hmr : c.mintRefresh with
    | error e => simp [hmr, succeeded] at hr
    | ok r => exact ⟨a, r, rfl, rfl, by simp [hsave]⟩

/-- The handler answers 200 only on the fault-free path from a resolving identifier. -/
theorem RefreshToken_ok_iff (c : RefreshCtx) (s : Store) :
    (RefreshToken c s).1.status = StatusOK ↔
      c.session_id ≠ "" ∧ resolves s c.session_id = true ∧ c.noFaults = true := by
  constructor
  · intro hst
    by_cases h : c.session_id = ""
    · rw [RefreshToken_of_empty c s h] at hst
      simp [failResponse, StatusBadRequest, StatusOK] at hst
    · by_cases hmiss : c.getFault.isSome = true ∨ s c.session_id = none
      · rw [RefreshToken_of_lookup_failed c s h hmiss] at hst
        simp [failResponse, StatusBadGateway, StatusOK] at hst
      · rw [not_or] at hmiss
        obtain ⟨hget0, hsome⟩ := hmiss
        have hget : c.getFault = none := by
          cases hg : c.getFault with
          | none => rfl
          | some e => simp [hg] at hget0
        have hres : resolves s c.session_id = true := by
          cases hk : s c.session_id with
          | none => exact absurd hk hsome
          | some e => simp [resolves, hk]
        rw [RefreshToken_of_found c s h hget hres] at hst
        refine ⟨h, hres, ?_⟩
        cases hma : c.mintAccess with
        | error e => simp [hma, failResponse, StatusBadGateway, StatusOK] at hst
        | ok a =>
          cases hmr : c.mintRefresh with
          | error e => simp [hma, hmr, failResponse, StatusBadGateway, StatusOK] at hst
          | ok r =>
            cases hs : c.saveFault with
            | some e => simp [hma, hmr, hs, failResponse, StatusBadGateway, StatusOK] at hst
            | none => simp [RefreshCtx.noFaults, hget, hs, hma, hmr, succeeded]
  · rintro ⟨h, hres, hok⟩
    obtain ⟨a, r, -, -, heq⟩ := RefreshToken_of_noFaults c s h hres hok
    simp [heq, refreshOK]

theorem rotated_old (s : Store) (old new : String) (v : CacheValue) (ttl : Int)
    (hne : new ≠ old) : rotated s old new v ttl old = none := by
  simp [rotated, Ne.symm hne]

theorem rotated_new (s : Store) (old new : String) (v : CacheValue) (ttl : Int) :
    rotated s old new v ttl new = some ⟨v, ttl⟩ := by
  simp [rotated]

theorem rotated_other (s : Store) (old new k : String) (v : CacheValue) (ttl : Int)
    (h1 : k ≠ old) (h2 : k ≠ new) : rotated s old new v ttl k = s k := by
  simp [rotated, h1, h2]

/-! ## Refresh rotation -/

/-- C1: rotation makes a session identifier single-use. From a store in which the
presented identifier resolves, once `RefreshToken` has succeeded and issued a new
identifier different from the presented one, the presented identifier no longer
resolves, a second `RefreshToken` with it fails (502, store untouched) whatever
else that request carries, and a fault-free `RefreshToken` with the new identifier
succeeds. -/
theorem refresh_rotation_single_use (s : Store) (c1 c2 c3 : RefreshCtx)
    (hres : resolves s c1.session_id = true)
    (hsucc : (RefreshToken c1 s).1.status = StatusOK)
    (hfresh : c1.newSessionID ≠ c1.session_id)
    (h2 : c2.session_id = c1.session_id)
    (h3 : c3.session_id = c1.newSessionID)
    (hok3 : c3.noFaults = true) :
    ((RefreshToken c1 s).1.cookie "session_id").map Cookie.Value = some c1.newSessionID ∧
    resolves (RefreshToken c1 s).2 c1.session_id = false ∧
    (RefreshToken c2 (RefreshToken c1 s).2).1.status = StatusBadGateway ∧
    (RefreshToken c2 (RefreshToken c1 s).2).2 = (RefreshToken c1 s).2 ∧
    (RefreshToken c3 (RefreshToken c2 (RefreshToken c1 s).2).2).1.status = StatusOK := by
  obtain ⟨hsid, -, hok1⟩ := (RefreshToken_ok_iff c1 s).1 hsucc
  obtain ⟨a, r, -, -, heq⟩ := RefreshToken_of_noFaults c1 s hsid hres hok1
  have hold : (RefreshToken c1 s).2 c1.session_id = none := by
    rw [heq]; exact rotated_old _ _ _ _ _ hfresh
  have hsid2 : c2.session_id ≠ "" := by rw [h2]; exact hsid
  have hsecond := RefreshToken_of_lookup_failed c2 (RefreshToken c1 s).2 hsid2
    (Or.inr (by rw [h2]; exact hold))
  have hsid3 : c3.session_id ≠ "" := by rw [h3]; exact uuidString_ne_empty _
  have hres3 : resolves (RefreshToken c1 s).2 c3.session_id = true := by
    rw [h3, heq]; simp only [resolves]; rw [rotated_new]; rfl
  refine ⟨?_, (resolves_false_iff _ _).2 hold, ?_, ?_, ?_⟩
  · rw [heq]; rfl
  · rw [hsecond]; rfl
  · rw [hsecond]
  · rw [hsecond]
    exact (RefreshToken_ok_iff c3 _).2 ⟨hsid3, hres3, hok3⟩

theorem refresh_rotation_single_use_witness :
    resolves exStore "s-old" = true ∧
    (RefreshToken (exCtx alice "s-old" 5) exStore).1.status = StatusOK ∧
    (((RefreshToken (exCtx alice "s-old" 5) exStore).1.cookie "session_id").map Cookie.Value
        = some (exCtx alice "s-old" 5).newSessionID ∧
      resolves (RefreshToken (exCtx alice "s-old" 5) exStore).2 "s-old" = false ∧
      (RefreshToken (exCtx alice "s-old" 6)
        (RefreshToken (exCtx alice "s-old" 5) exStore).2).1.status = StatusBadGateway ∧
      (RefreshToken (exCtx alice "s-old" 6) (RefreshToken (exCtx alice "s-old" 5) exStore).2).2
        = (RefreshToken (exCtx alice "s-old" 5) exStore).2 ∧
      (RefreshToken (exCtx alice (uuidString (exUUID 5)) 7)
        (RefreshToken (exCtx alice "s-old" 6)
          (RefreshToken (exCtx alice "s-old" 5) exStore).2).2).1.status = StatusOK) :=
  ⟨by decide, by decide,
    refresh_rotation_single_use exStore (exCtx alice "s-old" 5) (exCtx alice "s-old" 6)
      (exCtx alice (uuidString (exUUID 5)) 7) (by decide) (by decide) (by decide) rfl rfl
      (by decide)⟩

/-- C2, as the code has it: the old entry is deleted after both tokens have been
minted and before the new record is saved. When the lookup has found a record:
if minting the access or the refresh token fails the handler answers 502 and the
store is unchanged, so the identifier still resolves; if both mintings succeed the
identifier no longer resolves when the save fails, nor when the save succeeds
with a new identifier different from it. -/
theorem refresh_deletes_after_minting (c : RefreshCtx) (s : Store)
    (hsid : c.session_id ≠ "") (hget : c.getFault = none)
    (hres : resolves s c.session_id = true) :
    (succeeded c.mintAccess = false ∨ succeeded c.mintRefresh = false →
      (RefreshToken c s).1.status = StatusBadGateway ∧ (RefreshToken c s).2 = s ∧
        resolves (RefreshToken c s).2 c.session_id = true) ∧
    (succeeded c.mintAccess = true → succeeded c.mintRefresh = true →
      (c.saveFault.isSome = true →
        (RefreshToken c s).1.status = StatusBadGateway ∧
          resolves (RefreshToken c s).2 c.session_id = false) ∧
      (c.saveFault = none → c.newSessionID ≠ c.session_id →
        (RefreshToken c s).1.status = StatusOK ∧
          resolves (RefreshToken c s).2 c.session_id = false)) := by
  rw [RefreshToken_of_found c s hsid hget hres]
  cases hma : c.mintAccess with
  | error e => simp [succeeded, failResponse, hres]
  | ok a =>
    cases hmr : c.mintRefresh with
    | error e => simp [succeeded, failResponse, hres]
    | ok r =>
      cases hs : c.saveFault with
      | some e => simp [succeeded, failResponse, DeleteRefreshToken, resolves]
      | none =>
        simp only [succeeded, Bool.true_eq_false, or_self, false_implies, true_and,
          forall_const, Option.isSome_none]
        refine ⟨fun hf => absurd hf (by decide), fun hne => ?_⟩
        exact ⟨rfl, (resolves_false_iff _ _).2 (rotated_old _ _ _ _ _ hne)⟩

theorem refresh_deletes_after_minting_witness :
    (succeeded (exCtxMintFails alice "s-old" 5).mintAccess = false ∨
        succeeded (exCtxMintFails alice "s-old" 5).mintRefresh = false →
      (RefreshToken (exCtxMintFails alice "s-old" 5) exStore).1.status = StatusBadGateway ∧
        (RefreshToken (exCtxMintFails alice "s-old" 5) exStore).2 = exStore ∧
        resolves (RefreshToken (exCtxMintFails alice "s-old" 5) exStore).2 "s-old" = true) ∧
    (succeeded (exCtxMintFails alice "s-old" 5).mintAccess = true →
      succeeded (exCtxMintFails alice "s-old" 5).mintRefresh = true →
      ((exCtxMintFails alice "s-old" 5).saveFault.isSome = true →
        (RefreshToken (exCtxMintFails alice "s-old" 5) exStore).1.status = StatusBadGateway ∧
          resolves (RefreshToken (exCtxMintFails alice "s-old" 5) exStore).2 "s-old" = false) ∧
      ((exCtxMintFails alice "s-old" 5).saveFault = none →
        (exCtxMintFails alice "s-old" 5).newSessionID ≠ "s-old" →
        (RefreshToken (exCtxMintFails alice "s-old" 5) exStore).1.status = StatusOK ∧
          resolves (RefreshToken (exCtxMintFails alice "s-old" 5) exStore).2 "s-old" = false)) :=
  refresh_deletes_after_minting (exCtxMintFails alice "s-old" 5) exStore (by decide) rfl
    (by decide)

/-- C2 fails as stated: with a resolving identifier and a failing access-token
minting the handler answers 502 and the identifier still resolves afterwards; and
when the UUID drawn renders to the presented identifier, the identifier resolves
after a successful rotation (to the new record). -/
theorem refresh_delete_not_before_minting :
    resolves exStore "s-old" = true ∧
    (exCtxMintFails alice "s-old" 5).getFault = none ∧
    succeeded (exCtxMintFails alice "s-old" 5).mintAccess = false ∧
    (RefreshToken (exCtxMintFails alice "s-old" 5) exStore).1.status = StatusBadGateway ∧
    resolves (RefreshToken (exCtxMintFails alice "s-old" 5) exStore).2 "s-old" = true ∧
    resolves exStoreUUID (uuidString (exUUID 5)) = true ∧
    (RefreshToken (exCtx alice (uuidString (exUUID 5)) 5) exStoreUUID).1.status = StatusOK ∧
    resolves (RefreshToken (exCtx alice (uuidString (exUUID 5)) 5) exStoreUUID).2 (uuidString (exUUID 5))
      = true := by
  decide

/-! ## Logout -/

/-- C3: `LogOutUser` is idempotent and never errors. For every store and every
cookie value it answers 200 with the success body; after the first call a
presented (non-empty) identifier no longer resolves; a second call with the same
identifier answers 200 with the same body and leaves the store exactly as the
first call left it. -/
theorem logout_idempotent (s : Store) (c1 c2 : LogOutCtx)
    (hsame : c2.session_id = c1.session_id) :
    (LogOutUser c1 s).1.status = StatusOK ∧
    (LogOutUser c1 s).1.body = [("status", "success")] ∧
    (c1.session_id ≠ "" → resolves (LogOutUser c1 s).2 c1.session_id = false) ∧
    (LogOutUser c2 (LogOutUser c1 s).2).1.status = StatusOK ∧
    (LogOutUser c2 (LogOutUser c1 s).2).1.body = [("status", "success")] ∧
    (LogOutUser c2 (LogOutUser c1 s).2).2 = (LogOutUser c1 s).2 := by
  refine ⟨rfl, rfl, ?_, rfl, rfl, ?_⟩
  · intro h
    simp [LogOutUser, h, DeleteRefreshToken, resolves]
  · by_cases h : c1.session_id = ""
    · simp [LogOutUser, hsame, h]
    · funext k
      by_cases hk : k = c1.session_id <;> simp [LogOutUser, hsame, h, DeleteRefreshToken, hk]

theorem logout_idempotent_witness :
    resolves exStore "s-old" = true ∧
    (LogOutUser ⟨"s-old", 0⟩ exStore).1.status = StatusOK ∧
    (LogOutUser ⟨"s-old", 0⟩ exStore).1.body = [("status", "success")] ∧
    ("s-old" ≠ "" → resolves (LogOutUser ⟨"s-old", 0⟩ exStore).2 "s-old" = false) ∧
    (LogOutUser ⟨"s-old", 7⟩ (LogOutUser ⟨"s-old", 0⟩ exStore).2).1.status = StatusOK ∧
    (LogOutUser ⟨"s-old", 7⟩ (LogOutUser ⟨"s-old", 0⟩ exStore).2).1.body
      = [("status", "success")] ∧
    (LogOutUser ⟨"s-old", 7⟩ (LogOutUser ⟨"s-old", 0⟩ exStore).2).2
      = (LogOutUser ⟨"s-old", 0⟩ exStore).2 :=
  ⟨by decide, logout_idempotent exStore ⟨"s-old", 0⟩ ⟨"s-old", 7⟩ rfl⟩

/-! ## Lookup failures -/

/-- C4, as the code has it: on a cache miss (the store answers without error and
holds no record) `RefreshToken` answers 502 Bad Gateway, leaves the store
unchanged, and that status is not a caller-fault status; it is the very status
answered when the lookup itself fails with an infrastructure error. -/
theorem refresh_cache_miss_is_bad_gateway (c : RefreshCtx) (s : Store)
    (hsid : c.session_id ≠ "") (hget : c.getFault = none)
    (hmiss : resolves s c.session_id = false) :
    RefreshToken c s =
      (failResponse StatusBadGateway "getting refresh token from cache failed: <nil>", s) ∧
    isCallerFault (RefreshToken c s).1.status = false ∧
    ∀ e : String, (RefreshToken { c with getFault := some e } s).1.status
      = (RefreshToken c s).1.status := by
  have hnone := (resolves_false_iff _ _).1 hmiss
  have h1 := RefreshToken_of_lookup_failed c s hsid (Or.inr hnone)
  have hfmt : fmtErr (GetRefreshToken s c.session_id c.getFault).2 = "<nil>" := by
    simp [GetRefreshToken, hget, fmtErr]
  rw [hfmt] at h1
  refine ⟨h1, ?_, ?_⟩
  · rw [h1]; rfl
  · intro e
    rw [h1, RefreshToken_of_lookup_failed { c with getFault := some e } s hsid (Or.inl rfl)]
    rfl

theorem refresh_cache_miss_is_bad_gateway_witness :
    RefreshToken (exCtx alice "s-gone" 5) exStore =
      (failResponse StatusBadGateway "getting refresh token from cache failed: <nil>",
        exStore) ∧
    isCallerFault (RefreshToken (exCtx alice "s-gone" 5) exStore).1.status = false ∧
    ∀ e : String,
      (RefreshToken { exCtx alice "s-gone" 5 with getFault := some e } exStore).1.status
        = (RefreshToken (exCtx alice "s-gone" 5) exStore).1.status :=
  refresh_cache_miss_is_bad_gateway (exCtx alice "s-gone" 5) exStore (by decide) rfl
    (by decide)

/-- C4 fails as stated: a cache miss and an unreachable store both answer status
502, which is not a caller-fault status. -/
theorem refresh_cache_miss_same_status_as_store_error :
    (exCtx alice "s-gone" 5).getFault = none ∧
    resolves exStore "s-gone" = false ∧
    (RefreshToken (exCtx alice "s-gone" 5) exStore).1.status = 502 ∧
    isCallerFault (RefreshToken (exCtx alice "s-gone" 5) exStore).1.status = false ∧
    (RefreshToken (exCtxStoreDown alice "s-gone" 5) exStore).1.status
      = (RefreshToken (exCtx alice "s-gone" 5) exStore).1.status := by
  decide

/-! ## Missing session identifier -/

/-- C7: `RefreshToken` called with no session identifier (empty `session_id`
cookie value) answers the missing-session client error, status 400, for every
store, user, configuration and fault, and returns the store it was given. -/
theorem refresh_missing_session (c : RefreshCtx) (s : Store) (h : c.session_id = "") :
    RefreshToken c s =
      (failResponse StatusBadRequest "session_id cookie is missing or empty", s) ∧
    (RefreshToken c s).1.status = 400 ∧
    isCallerFault (RefreshToken c s).1.status = true ∧
    (RefreshToken c s).2 = s := by
  rw [RefreshToken_of_empty c s h]
  exact ⟨rfl, rfl, rfl, rfl⟩

theorem refresh_missing_session_witness :
    RefreshToken (exCtx alice "" 5) exStore =
      (failResponse StatusBadRequest "session_id cookie is missing or empty", exStore) ∧
    (RefreshToken (exCtx alice "" 5) exStore).1.status = 400 ∧
    isCallerFault (RefreshToken (exCtx alice "" 5) exStore).1.status = true ∧
    (RefreshToken (exCtx alice "" 5) exStore).2 = exStore :=
  refresh_missing_session (exCtx alice "" 5) exStore rfl

/-! ## Lifetimes -/

/-- C5 at the failing configuration (refresh tokens minted for 60 minutes,
`RefreshJwtMaxAge` 60): a successful `RefreshToken` saves, under the new
identifier, the refresh token it minted with the lifetime of 3600 seconds, under
a TTL of 216000 seconds, which is above that lifetime; the `session_id` cookie of
the same response, computed from the same field, has max-age 3600 seconds, the
lifetime itself. -/
theorem refresh_save_ttl_exceeds_refresh_lifetime :
    (RefreshToken (exCtx alice "s-old" 5) exStore).1.status = StatusOK ∧
    (exCtx alice "s-old" 5).config.RefreshJwtMaxAge = 60 ∧
    durationSeconds (exCtx alice "s-old" 5).config.RefreshJwtExpiresIn = 3600 ∧
    ((RefreshToken (exCtx alice "s-old" 5) exStore).2 (uuidString (exUUID 5))).map
      (fun e => some e.value.RefreshToken)
      = some (Except.toOption ((exCtx alice "s-old" 5).GenerateToken
          (exCtx alice "s-old" 5).config.RefreshJwtExpiresIn alice.ID
          (exCtx alice "s-old" 5).config.RefreshJwtSecret)) ∧
    ((RefreshToken (exCtx alice "s-old" 5) exStore).2 (uuidString (exUUID 5))).map
      (fun e => durationSeconds e.ttl) = some 216000 ∧
    ((RefreshToken (exCtx alice "s-old" 5) exStore).2 (uuidString (exUUID 5))).map
      (fun e => decide (e.ttl ≤ (exCtx alice "s-old" 5).config.RefreshJwtExpiresIn))
      = some false ∧
    (RefreshToken (exCtx alice "s-old" 5) exStore).1.cookieMaxAge "session_id"
      = some (durationSeconds (exCtx alice "s-old" 5).config.RefreshJwtExpiresIn) := by
  decide

/-- C6 at the failing configuration (`AccessJwtMaxAge` 15, `RefreshJwtMaxAge` 60):
`SignInUser` sets the `session_id` cookie with max-age 900 seconds, `RefreshToken`
sets it with 3600 seconds, and `RefreshToken` saves the record under a TTL of
216000 seconds. -/
theorem session_cookie_max_age_mismatch :
    (SignInUser exSignIn).status = StatusOK ∧
    (SignInUser exSignIn).cookieMaxAge "session_id" = some 900 ∧
    (RefreshToken (exCtx alice "s-old" 5) exStore).1.status = StatusOK ∧
    (RefreshToken (exCtx alice "s-old" 5) exStore).1.cookieMaxAge "session_id" = some 3600 ∧
    ((RefreshToken (exCtx alice "s-old" 5) exStore).2 (uuidString (exUUID 5))).map
      (fun e => durationSeconds e.ttl) = some 216000 := by
  decide

/-! ## Routes -/

/-- C8: the `/users/` route runs `DeserializeUser`, then `AllowedRoles` over
admin and moderator, then `GetUsersHandler`. With authorisation as membership of
the role in that set: an authenticated user of role `user` ends as Forbidden,
one of role `admin` or `moderator` reaches the handler, a request that does not
authenticate ends as Unauthenticated before any role is looked at, and an
authenticated user reaches the handler exactly when the role is one of the two. -/
theorem users_route_guard :
    chainOf "GET" "/users/" =
      some [.DeserializeUser, .AllowedRoles ["admin", "moderator"], .GetUsersHandler] ∧
    (∀ id : String, dispatch "GET" "/users/" (some ⟨id, "user"⟩) = .Forbidden) ∧
    (∀ id : String, dispatch "GET" "/users/" (some ⟨id, "admin"⟩) = .Reached .GetUsersHandler) ∧
    (∀ id : String,
      dispatch "GET" "/users/" (some ⟨id, "moderator"⟩) = .Reached .GetUsersHandler) ∧
    dispatch "GET" "/users/" none = .Unauthenticated ∧
    (∀ u : User, dispatch "GET" "/users/" (some u) =
      if u.Role = "admin" ∨ u.Role = "moderator" then .Reached .GetUsersHandler
      else .Forbidden) := by
  have hchain : chainOf "GET" "/users/" =
      some [.DeserializeUser, .AllowedRoles ["admin", "moderator"], .GetUsersHandler] := by
    decide
  have hrun : ∀ u : User, dispatch "GET" "/users/" (some u) =
      if u.Role = "admin" ∨ u.Role = "moderator" then .Reached .GetUsersHandler
      else .Forbidden := by
    intro u
    simp only [dispatch, hchain, runChain, authorize, List.mem_cons, List.mem_singleton,
      List.mem_nil_iff, or_false]
    by_cases h : u.Role = "admin" ∨ u.Role = "moderator" <;> simp [h]
  refine ⟨hchain, fun id => ?_, fun id => ?_, fun id => ?_, ?_, hrun⟩
  · rw [hrun]; simp
  · rw [hrun]; simp
  · rw [hrun]; simp
  · simp [dispatch, hchain, runChain]

/-! ## Frame of a successful refresh -/

/-- C9: a successful `RefreshToken` leaves the prior store with the presented
identifier removed and the new identifier (the one sent in the `session_id`
cookie) mapped to the record of the authenticated user and the refresh token
returned in the response; every other identifier resolves as before. -/
theorem refresh_success_frame (c : RefreshCtx) (s : Store)
    (hsucc : (RefreshToken c s).1.status = StatusOK) :
    ∃ tok : String,
      (RefreshToken c s).1.field "refresh_token" = some tok ∧
      ((RefreshToken c s).1.cookie "session_id").map Cookie.Value = some c.newSessionID ∧
      (RefreshToken c s).2 =
        (fun k =>
          if k = c.newSessionID then some ⟨⟨c.user.ID, tok⟩, refreshSaveTTL c.config⟩
          else if k = c.session_id then none else s k) ∧
      GetRefreshToken (RefreshToken c s).2 c.newSessionID none
        = (some ⟨c.user.ID, tok⟩, none) ∧
      (c.newSessionID ≠ c.session_id → resolves (RefreshToken c s).2 c.session_id = false) ∧
      ∀ k : String, k ≠ c.session_id → k ≠ c.newSessionID →
        (RefreshToken c s).2 k = s k := by
  obtain ⟨hsid, hres, hok⟩ := (RefreshToken_ok_iff c s).1 hsucc
  obtain ⟨a, r, -, -, heq⟩ := RefreshToken_of_noFaults c s hsid hres hok
  rw [heq]
  refine ⟨r, rfl, rfl, rfl, ?_, ?_, ?_⟩
  · simp [GetRefreshToken, rotated]
  · intro hne
    exact (resolves_false_iff _ _).2 (rotated_old _ _ _ _ _ hne)
  · intro k h1 h2
    exact rotated_other _ _ _ _ _ _ h1 h2

theorem refresh_success_frame_witness :
    (RefreshToken (exCtx alice "s-old" 5) exStore).1.status = StatusOK ∧
    ∃ tok : String,
      (RefreshToken (exCtx alice "s-old" 5) exStore).1.field "refresh_token" = some tok ∧
      ((RefreshToken (exCtx alice "s-old" 5) exStore).1.cookie "session_id").map Cookie.Value
        = some (uuidString (exUUID 5)) ∧
      (RefreshToken (exCtx alice "s-old" 5) exStore).2 =
        (fun k =>
          if k = uuidString (exUUID 5) then some ⟨⟨"a11ce", tok⟩, refreshSaveTTL exConfig⟩
          else if k = "s-old" then none else exStore k) ∧
      GetRefreshToken (RefreshToken (exCtx alice "s-old" 5) exStore).2 (uuidString (exUUID 5)) none
        = (some ⟨"a11ce", tok⟩, none) ∧
      (uuidString (exUUID 5) ≠ "s-old" →
        resolves (RefreshToken (exCtx alice "s-old" 5) exStore).2 "s-old" = false) ∧
      ∀ k : String, k ≠ "s-old" → k ≠ uuidString (exUUID 5) →
        (RefreshToken (exCtx alice "s-old" 5) exStore).2 k = exStore k :=
  ⟨by decide, refresh_success_frame (exCtx alice "s-old" 5) exStore (by decide)⟩

/-! ## Ownership of the presented session -/

/-- C10, as the code has it: `RefreshToken` does not compare the subject of the
record with the authenticated user. When the presented identifier resolves to a
record of another subject and minting and the store operations succeed, the
handler answers 200, that record is removed, and the new identifier is mapped to
a record whose subject is the authenticated user. -/
theorem refresh_rotates_foreign_session (c : RefreshCtx) (s : Store) (e : Entry)
    (hsid : c.session_id ≠ "") (hrec : s c.session_id = some e)
    (hforeign : e.value.UserID ≠ c.user.ID) (hok : c.noFaults = true)
    (hfresh : c.newSessionID ≠ c.session_id) :
    (RefreshToken c s).1.status = StatusOK ∧
    (RefreshToken c s).2 c.session_id = none ∧
    (∃ tok : String, (RefreshToken c s).2 c.newSessionID
      = some ⟨⟨c.user.ID, tok⟩, refreshSaveTTL c.config⟩) ∧
    ((RefreshToken c s).2 c.newSessionID).map (fun n => n.value.UserID)
      ≠ some e.value.UserID := by
  have hres : resolves s c.session_id = true := by simp [resolves, hrec]
  obtain ⟨a, r, -, -, heq⟩ := RefreshToken_of_noFaults c s hsid hres hok
  rw [heq]
  refine ⟨rfl, rotated_old _ _ _ _ _ hfresh, ⟨r, rotated_new _ _ _ _ _⟩, ?_⟩
  simp only [rotated_new, Option.map_some', ne_eq, Option.some.injEq]
  exact fun h => hforeign h.symm

theorem refresh_rotates_foreign_session_witness :
    (RefreshToken (exCtx bob "s-old" 5) exStore).1.status = StatusOK ∧
    (RefreshToken (exCtx bob "s-old" 5) exStore).2 "s-old" = none ∧
    (∃ tok : String, (RefreshToken (exCtx bob "s-old" 5) exStore).2 (uuidString (exUUID 5))
      = some ⟨⟨"b0b", tok⟩, refreshSaveTTL exConfig⟩) ∧
    ((RefreshToken (exCtx bob "s-old" 5) exStore).2 (uuidString (exUUID 5))).map
      (fun n => n.value.UserID) ≠ some "a11ce" :=
  refresh_rotates_foreign_session (exCtx bob "s-old" 5) exStore ⟨⟨"a11ce", "rt-old"⟩, 60 * Hour⟩
    (by decide) (by decide) (by decide) (by decide) (by decide)

/-- C10 fails as stated: `bob`, authenticated, presents the identifier of a
session whose subject is `alice`; `RefreshToken` answers 200, the record of
`alice` is gone from the store and a record of `bob` is saved under the new
identifier. -/
theorem refresh_does_not_check_owner :
    (exStore "s-old").map (fun e => e.value.UserID) = some "a11ce" ∧
    (exCtx bob "s-old" 5).user.ID = "b0b" ∧
    (RefreshToken (exCtx bob "s-old" 5) exStore).1.status = StatusOK ∧
    (RefreshToken (exCtx bob "s-old" 5) exStore).2 "s-old" = none ∧
    ((RefreshToken (exCtx bob "s-old" 5) exStore).2 (uuidString (exUUID 5))).map
      (fun e => e.value.UserID) = some "b0b" := by
  decide

end JwtAuth
